import Mathlib

/-!
Verification of the librepods-gnome daemon core: a shallow embedding of the
AAP (Apple Accessory Protocol) codec (`daemon/src/aap_protocol.c`), the shared
device-state model (`airpods_state.c` / `airpods_state.h`), the media
controller (`media_control.c`), and the orchestrator's command handlers and
packet dispatch (`daemon/src/main.c`), together with theorems about the
properties the specification claims.

Byte buffers are modelled as `List Nat` (each entry one byte); reading past
the end yields 0, mirroring the fact that the C code always guards reads with
a length check.  C out-parameters are threaded explicitly: each parse
function receives the prior value of its output and returns the updated one,
so uninitialised-field behaviour of the C union is represented by leaving the
threaded value untouched.
-/

namespace LibrePods

/- ============================ constants ============================ -/

/-- C source item `AAP_HEADER_SIZE` from `aap_protocol.h`. -/
def AAP_HEADER_SIZE : Nat := 4

def AAP_OPCODE_BATTERY : Nat := 0x04
def AAP_OPCODE_EAR_DETECTION : Nat := 0x06
def AAP_OPCODE_CONTROL : Nat := 0x09
def AAP_OPCODE_METADATA : Nat := 0x1D
def AAP_OPCODE_CA_DETECTION : Nat := 0x4B

def AAP_CTRL_NOISE_CONTROL : Nat := 0x0D
def AAP_CTRL_LISTENING_MODES : Nat := 0x1A
def AAP_CTRL_CONV_AWARENESS : Nat := 0x28
def AAP_CTRL_ADAPTIVE_LEVEL : Nat := 0x2E

def AAP_BATTERY_SINGLE : Nat := 0x01
def AAP_BATTERY_RIGHT : Nat := 0x02
def AAP_BATTERY_LEFT : Nat := 0x04
def AAP_BATTERY_CASE : Nat := 0x08

def AAP_EAR_IN_EAR : Nat := 0x00

def AAP_CONTROL_CMD_SIZE : Nat := 11
def AAP_MIN_BATTERY_SIZE : Nat := 12

/-- Modelled from the spec: the listening-mode bitmask constants
`AAP_LISTENING_MODE_OFF` .. `AAP_LISTENING_MODE_ADAPTIVE` are declared in the
feature-complete `airpods_state.h`, which is not among the provided sources;
the spec (§4.1) gives the bits `0x01`=Off, `0x02`=Transparency, `0x04`=ANC,
`0x08`=Adaptive. -/
def AAP_LISTENING_MODE_OFF : Nat := 0x01

/-- Modelled from the spec: see `AAP_LISTENING_MODE_OFF`. -/
def AAP_LISTENING_MODE_TRANSPARENCY : Nat := 0x02

/-- Modelled from the spec: see `AAP_LISTENING_MODE_OFF`. -/
def AAP_LISTENING_MODE_ANC : Nat := 0x04

/-- Modelled from the spec: see `AAP_LISTENING_MODE_OFF`. -/
def AAP_LISTENING_MODE_ADAPTIVE : Nat := 0x08

/- ============================ data model ============================ -/

/-- C source item `NoiseControlMode` from `airpods_state.h`. -/
inductive NoiseControlMode
  | OFF
  | ANC
  | TRANSPARENCY
  | ADAPTIVE
deriving DecidableEq, Repr, Inhabited

/-- C source item `BatteryStatus` from `airpods_state.h`. -/
inductive BatteryStatus
  | UNKNOWN
  | CHARGING
  | DISCHARGING
  | DISCONNECTED
deriving DecidableEq, Repr, Inhabited

/-- C source item `AirPodsModel` from `airpods_state.h` (feature-complete variant, which
also has `AIRPODS_MODEL_PRO_3` as used by `airpods_state.c`). -/
inductive AirPodsModel
  | UNKNOWN
  | MODEL_1
  | MODEL_2
  | MODEL_3
  | MODEL_4
  | MODEL_4_ANC
  | PRO
  | PRO_2
  | PRO_2_USBC
  | PRO_3
  | MAX
  | MAX_USBC
deriving DecidableEq, Repr, Inhabited

/-- C source item `AapParseResult` from `aap_protocol.h`. -/
inductive AapParseResult
  | OK
  | INCOMPLETE
  | INVALID_HEADER
  | UNKNOWN_OPCODE
  | MALFORMED
deriving DecidableEq, Repr, Inhabited

/-- C source item `AapPacketType` from `aap_protocol.h` (the `.c` file additionally uses
`AAP_PKT_TYPE_LISTENING_MODES`). -/
inductive AapPacketType
  | UNKNOWN
  | BATTERY
  | EAR_DETECTION
  | NOISE_CONTROL
  | CONV_AWARENESS
  | CA_DETECTION
  | METADATA
  | LISTENING_MODES
deriving DecidableEq, Repr, Inhabited

/-- C source item `AapBatteryData` from `aap_protocol.h`; levels are `int8_t` holding
0..100 or the sentinel -1, modelled as `Int`. -/
structure AapBatteryData where
  left_level : Int
  right_level : Int
  case_level : Int
  left_status : BatteryStatus
  right_status : BatteryStatus
  case_status : BatteryStatus
deriving DecidableEq, Repr, Inhabited

/-- C source item `AapEarDetectionData` from `aap_protocol.h`. -/
structure AapEarDetectionData where
  primary_in_ear : Bool
  secondary_in_ear : Bool
  primary_left : Bool
deriving DecidableEq, Repr, Inhabited

/-- The `listening_modes` member of the parse-result union in the
feature-complete `aap_protocol.h`, as populated by `parse_control_packet`. -/
structure AapListeningModes where
  raw_value : Nat
  off_enabled : Bool
  transparency_enabled : Bool
  anc_enabled : Bool
  adaptive_enabled : Bool
deriving DecidableEq, Repr, Inhabited

/-- C source item `AapMetadata` from `aap_protocol.h`; the three bounded char arrays are
modelled as byte lists. -/
structure AapMetadata where
  device_name : List Nat
  model_number : List Nat
  manufacturer : List Nat
deriving DecidableEq, Repr, Inhabited

/-- C source item `AapParsedPacket` from `aap_protocol.h`.  The C `union` is flattened into
independent fields; only the field matching `type` is meaningful, exactly as
in the C code where only that member is written/read. -/
structure AapParsedPacket where
  type : AapPacketType
  battery : AapBatteryData
  ear_detection : AapEarDetectionData
  noise_control : NoiseControlMode
  conversational_awareness : Bool
  ca_volume_level : Nat
  listening_modes : AapListeningModes
  metadata : AapMetadata
deriving DecidableEq, Repr, Inhabited

/- ============================ codec: parsing ============================ -/

/-- Read byte `i` of a buffer; out-of-range reads (always guarded by length
checks in the C code) yield 0. -/
def byteAt (data : List Nat) (i : Nat) : Nat := data.getD i 0

/-- C source item `aap_has_valid_header` from `aap_protocol.c`. -/
def aap_has_valid_header (data : List Nat) : Bool :=
  if data.length < AAP_HEADER_SIZE then false
  else
    byteAt data 0 == 0x04 && byteAt data 1 == 0x00 &&
    byteAt data 2 == 0x04 && byteAt data 3 == 0x00

/-- The `switch (status)` of `aap_parse_battery`. -/
def parse_battery_status (status : Nat) : BatteryStatus :=
  if status = 0x01 then BatteryStatus.CHARGING
  else if status = 0x02 then BatteryStatus.DISCHARGING
  else if status = 0x04 then BatteryStatus.DISCONNECTED
  else BatteryStatus.UNKNOWN

/-- One iteration of the record loop of `aap_parse_battery`: reads the
5-byte record at `offset` and applies the `switch (component)`. -/
def apply_battery_record (data : List Nat) (offset : Nat) (b : AapBatteryData) :
    AapBatteryData :=
  let component := byteAt data offset
  let level := byteAt data (offset + 2)
  let status := byteAt data (offset + 3)
  let bat_status := parse_battery_status status
  let lvl : Int := if level ≤ 100 then (level : Int) else -1
  if component = AAP_BATTERY_SINGLE then
    { b with left_level := lvl, left_status := bat_status }
  else if component = AAP_BATTERY_LEFT then
    { b with left_level := lvl, left_status := bat_status }
  else if component = AAP_BATTERY_RIGHT then
    { b with right_level := lvl, right_status := bat_status }
  else if component = AAP_BATTERY_CASE then
    { b with case_level := lvl, case_status := bat_status }
  else b

/-- The "initialize to unavailable" block of `aap_parse_battery`. -/
def battery_sentinel : AapBatteryData :=
  { left_level := -1, right_level := -1, case_level := -1,
    left_status := BatteryStatus.UNKNOWN,
    right_status := BatteryStatus.UNKNOWN,
    case_status := BatteryStatus.UNKNOWN }

/-- C source item `aap_parse_battery` from `aap_protocol.c`. -/
def aap_parse_battery (data : List Nat) (battery : AapBatteryData) :
    AapParseResult × AapBatteryData :=
  if data.length < AAP_MIN_BATTERY_SIZE then (AapParseResult.INCOMPLETE, battery)
  else if byteAt data 4 ≠ AAP_OPCODE_BATTERY ∨ byteAt data 5 ≠ 0x00 then
    (AapParseResult.MALFORMED, battery)
  else
    let count := byteAt data 6
    if count = 0 ∨ count > 3 then (AapParseResult.MALFORMED, battery)
    else if data.length < 7 + count * 5 then (AapParseResult.INCOMPLETE, battery)
    else
      (AapParseResult.OK,
       (List.range count).foldl
         (fun b i => apply_battery_record data (7 + i * 5) b) battery_sentinel)

/-- C source item `aap_parse_ear_detection` from `aap_protocol.c`. -/
def aap_parse_ear_detection (data : List Nat) (ear : AapEarDetectionData) :
    AapParseResult × AapEarDetectionData :=
  if data.length < 8 then (AapParseResult.INCOMPLETE, ear)
  else if byteAt data 4 ≠ AAP_OPCODE_EAR_DETECTION ∨ byteAt data 5 ≠ 0x00 then
    (AapParseResult.MALFORMED, ear)
  else
    (AapParseResult.OK,
     { primary_in_ear := byteAt data 6 == AAP_EAR_IN_EAR,
       secondary_in_ear := byteAt data 7 == AAP_EAR_IN_EAR,
       primary_left := true })

/-- C source item `aap_parse_noise_control` from `aap_protocol.c`. -/
def aap_parse_noise_control (data : List Nat) (mode : NoiseControlMode) :
    AapParseResult × NoiseControlMode :=
  if data.length < 8 then (AapParseResult.INCOMPLETE, mode)
  else if byteAt data 4 ≠ AAP_OPCODE_CONTROL ∨ byteAt data 6 ≠ AAP_CTRL_NOISE_CONTROL then
    (AapParseResult.MALFORMED, mode)
  else
    let mode_byte := byteAt data 7
    (AapParseResult.OK,
     if mode_byte = 0x01 then NoiseControlMode.OFF
     else if mode_byte = 0x02 then NoiseControlMode.ANC
     else if mode_byte = 0x03 then NoiseControlMode.TRANSPARENCY
     else if mode_byte = 0x04 then NoiseControlMode.ADAPTIVE
     else NoiseControlMode.OFF)

/-- The string-copy loop of `aap_parse_metadata`: copies bytes starting at
`pos` until end of buffer, a NUL byte, or `cap` bytes copied (`cap` is the
field capacity minus one); returns the copied bytes and the final position. -/
def extract_cstr (data : List Nat) (pos cap : Nat) : List Nat × Nat :=
  match cap with
  | 0 => ([], pos)
  | c + 1 =>
    if pos < data.length ∧ byteAt data pos ≠ 0 then
      let r := extract_cstr data (pos + 1) c
      (byteAt data pos :: r.1, r.2)
    else ([], pos)

/-- The "skip null terminator" step of `aap_parse_metadata`. -/
def skip_nul (data : List Nat) (pos : Nat) : Nat :=
  if pos < data.length ∧ byteAt data pos = 0 then pos + 1 else pos

/-- C source item `aap_parse_metadata` from `aap_protocol.c` (static). -/
def aap_parse_metadata (data : List Nat) (metadata : AapMetadata) :
    AapParseResult × AapMetadata :=
  if data.length < 12 then (AapParseResult.INCOMPLETE, metadata)
  else
    let r1 := extract_cstr data 12 63
    let p1 := skip_nul data r1.2
    let r2 := extract_cstr data p1 15
    let p2 := skip_nul data r2.2
    let r3 := extract_cstr data p2 31
    (AapParseResult.OK,
     { device_name := r1.1, model_number := r2.1, manufacturer := r3.1 })

/-- C source item `parse_control_packet` from `aap_protocol.c` (static). -/
def parse_control_packet (data : List Nat) (result : AapParsedPacket) :
    AapParseResult × AapParsedPacket :=
  if data.length < 8 then (AapParseResult.INCOMPLETE, result)
  else
    let ctrl_id := byteAt data 6
    if ctrl_id = AAP_CTRL_NOISE_CONTROL then
      let r := aap_parse_noise_control data result.noise_control
      (r.1, { result with type := AapPacketType.NOISE_CONTROL, noise_control := r.2 })
    else if ctrl_id = AAP_CTRL_CONV_AWARENESS then
      (AapParseResult.OK,
       { result with type := AapPacketType.CONV_AWARENESS,
                     conversational_awareness := byteAt data 7 == 0x01 })
    else if ctrl_id = AAP_CTRL_LISTENING_MODES then
      let modes := byteAt data 7
      (AapParseResult.OK,
       { result with type := AapPacketType.LISTENING_MODES,
                     listening_modes :=
                       { raw_value := modes,
                         off_enabled := modes.land AAP_LISTENING_MODE_OFF != 0,
                         transparency_enabled := modes.land AAP_LISTENING_MODE_TRANSPARENCY != 0,
                         anc_enabled := modes.land AAP_LISTENING_MODE_ANC != 0,
                         adaptive_enabled := modes.land AAP_LISTENING_MODE_ADAPTIVE != 0 } })
    else
      (AapParseResult.OK, { result with type := AapPacketType.UNKNOWN })

/-- C source item `aap_parse_packet` from `aap_protocol.c`. -/
def aap_parse_packet (data : List Nat) (result : AapParsedPacket) :
    AapParseResult × AapParsedPacket :=
  if ¬ aap_has_valid_header data then (AapParseResult.INVALID_HEADER, result)
  else if data.length < 5 then (AapParseResult.INCOMPLETE, result)
  else
    let opcode := byteAt data 4
    let result := { result with type := AapPacketType.UNKNOWN }
    if opcode = AAP_OPCODE_BATTERY then
      let r := aap_parse_battery data result.battery
      (r.1, { result with type := AapPacketType.BATTERY, battery := r.2 })
    else if opcode = AAP_OPCODE_EAR_DETECTION then
      let r := aap_parse_ear_detection data result.ear_detection
      (r.1, { result with type := AapPacketType.EAR_DETECTION, ear_detection := r.2 })
    else if opcode = AAP_OPCODE_CONTROL then
      parse_control_packet data result
    else if opcode = AAP_OPCODE_CA_DETECTION then
      (AapParseResult.OK,
       { result with type := AapPacketType.CA_DETECTION,
                     ca_volume_level :=
                       if 10 ≤ data.length then byteAt data 9 else result.ca_volume_level })
    else if opcode = AAP_OPCODE_METADATA then
      let r := aap_parse_metadata data result.metadata
      (r.1, { result with type := AapPacketType.METADATA, metadata := r.2 })
    else
      (AapParseResult.UNKNOWN_OPCODE, result)

/- ============================ codec: builders ============================ -/

def AAP_PKT_NC_OFF : List Nat :=
  [0x04, 0x00, 0x04, 0x00, 0x09, 0x00, 0x0D, 0x01, 0x00, 0x00, 0x00]

def AAP_PKT_NC_ANC : List Nat :=
  [0x04, 0x00, 0x04, 0x00, 0x09, 0x00, 0x0D, 0x02, 0x00, 0x00, 0x00]

def AAP_PKT_NC_TRANSPARENCY : List Nat :=
  [0x04, 0x00, 0x04, 0x00, 0x09, 0x00, 0x0D, 0x03, 0x00, 0x00, 0x00]

def AAP_PKT_NC_ADAPTIVE : List Nat :=
  [0x04, 0x00, 0x04, 0x00, 0x09, 0x00, 0x0D, 0x04, 0x00, 0x00, 0x00]

def AAP_PKT_CA_ENABLE : List Nat :=
  [0x04, 0x00, 0x04, 0x00, 0x09, 0x00, 0x28, 0x01, 0x00, 0x00, 0x00]

def AAP_PKT_CA_DISABLE : List Nat :=
  [0x04, 0x00, 0x04, 0x00, 0x09, 0x00, 0x28, 0x02, 0x00, 0x00, 0x00]

/-- C source item `aap_build_noise_control_cmd` from `aap_protocol.c`; the C `default`
branch (hit for `NOISE_CONTROL_OFF`) selects the Off packet. -/
def aap_build_noise_control_cmd (mode : NoiseControlMode) : List Nat :=
  match mode with
  | NoiseControlMode.ANC => AAP_PKT_NC_ANC
  | NoiseControlMode.TRANSPARENCY => AAP_PKT_NC_TRANSPARENCY
  | NoiseControlMode.ADAPTIVE => AAP_PKT_NC_ADAPTIVE
  | NoiseControlMode.OFF => AAP_PKT_NC_OFF

/-- C source item `aap_build_adaptive_level_cmd` from `aap_protocol.c`; `level` is a C
`int`, clamped to [0,100] before the `uint8_t` cast. -/
def aap_build_adaptive_level_cmd (level : Int) : List Nat :=
  [0x04, 0x00, 0x04, 0x00, 0x09, 0x00, AAP_CTRL_ADAPTIVE_LEVEL,
   (if level < 0 then (0 : Int) else if level > 100 then 100 else level).toNat,
   0x00, 0x00, 0x00]

/-- C source item `aap_build_conv_awareness_cmd` from `aap_protocol.c`. -/
def aap_build_conv_awareness_cmd (enable : Bool) : List Nat :=
  if enable then AAP_PKT_CA_ENABLE else AAP_PKT_CA_DISABLE

/-- C source item `aap_build_listening_modes_cmd` from `aap_protocol.c`; the parameter is
a `uint8_t`, so the value is reduced mod 256 at the call boundary. -/
def aap_build_listening_modes_cmd (modes : Nat) : List Nat :=
  [0x04, 0x00, 0x04, 0x00, 0x09, 0x00, AAP_CTRL_LISTENING_MODES,
   modes % 256, 0x00, 0x00, 0x00]

/- ============================ device state ============================ -/

/-- C source item `BatteryInfo` from `airpods_state.h`. -/
structure BatteryInfo where
  level : Int
  status : BatteryStatus
  available : Bool
deriving DecidableEq, Repr, Inhabited

/-- C source item `AirPodsState` from the feature-complete `airpods_state.h`: the fields
written by `airpods_state.c` (listening modes, `ear_pause_mode`, PRO_3 model)
are present.  The `GMutex` is omitted: all state access in the daemon happens
on one event loop and the embedding is sequential. -/
structure AirPodsState where
  connected : Bool
  device_name : Option String
  device_address : Option String
  model : AirPodsModel
  battery_left : BatteryInfo
  battery_right : BatteryInfo
  battery_case : BatteryInfo
  noise_control_mode : NoiseControlMode
  conversational_awareness : Bool
  adaptive_noise_level : Int
  one_bud_anc_enabled : Bool
  lm_off_enabled : Bool
  lm_transparency_enabled : Bool
  lm_anc_enabled : Bool
  lm_adaptive_enabled : Bool
  ear_left_in_ear : Bool
  ear_right_in_ear : Bool
  ear_primary_left : Bool
  ear_pause_mode : Int
deriving DecidableEq, Repr, Inhabited

/-- C source item `airpods_state_init` from `airpods_state.c`. -/
def airpods_state_init : AirPodsState :=
  { connected := false,
    device_name := none,
    device_address := none,
    model := AirPodsModel.UNKNOWN,
    battery_left := { level := -1, status := BatteryStatus.UNKNOWN, available := false },
    battery_right := { level := -1, status := BatteryStatus.UNKNOWN, available := false },
    battery_case := { level := -1, status := BatteryStatus.UNKNOWN, available := false },
    noise_control_mode := NoiseControlMode.OFF,
    conversational_awareness := false,
    adaptive_noise_level := 50,
    one_bud_anc_enabled := false,
    lm_off_enabled := false,
    lm_transparency_enabled := true,
    lm_anc_enabled := true,
    lm_adaptive_enabled := true,
    ear_left_in_ear := false,
    ear_right_in_ear := false,
    ear_primary_left := true,
    ear_pause_mode := 0 }

/-- C source item `airpods_state_reset` from `airpods_state.c`.  Note which fields the C
function does NOT touch: the listening-mode flags, `one_bud_anc_enabled`,
`ear_pause_mode` and `ear_detection.primary_left`. -/
def airpods_state_reset (state : AirPodsState) : AirPodsState :=
  { state with
    connected := false,
    device_name := none,
    device_address := none,
    model := AirPodsModel.UNKNOWN,
    battery_left := { level := -1, status := BatteryStatus.UNKNOWN, available := false },
    battery_right := { level := -1, status := BatteryStatus.UNKNOWN, available := false },
    battery_case := { level := -1, status := BatteryStatus.UNKNOWN, available := false },
    noise_control_mode := NoiseControlMode.OFF,
    conversational_awareness := false,
    adaptive_noise_level := 50,
    ear_left_in_ear := false,
    ear_right_in_ear := false }

/-- C source item `airpods_state_set_battery` from `airpods_state.c`: overwrites all three
component slots; `available` is derived as `level >= 0`. -/
def airpods_state_set_battery (state : AirPodsState)
    (left : Int) (left_status : BatteryStatus)
    (right : Int) (right_status : BatteryStatus)
    (case_level : Int) (case_status : BatteryStatus) : AirPodsState :=
  { state with
    battery_left := { level := left, status := left_status, available := 0 ≤ left },
    battery_right := { level := right, status := right_status, available := 0 ≤ right },
    battery_case := { level := case_level, status := case_status, available := 0 ≤ case_level } }

/-- C source item `airpods_state_set_listening_modes` from `airpods_state.c`. -/
def airpods_state_set_listening_modes (state : AirPodsState)
    (off_enabled transparency_enabled anc_enabled adaptive_enabled : Bool) :
    AirPodsState :=
  { state with
    lm_off_enabled := off_enabled,
    lm_transparency_enabled := transparency_enabled,
    lm_anc_enabled := anc_enabled,
    lm_adaptive_enabled := adaptive_enabled }

/-- C source item `noise_control_mode_from_string` relies on `g_ascii_strcasecmp`; this is
GLib's ASCII lower-casing of one character. -/
def g_ascii_tolower (c : Char) : Char :=
  if 'A' ≤ c ∧ c ≤ 'Z' then Char.ofNat (c.toNat + 32) else c

/-- C source item `g_ascii_strcasecmp(a, b) == 0`: the two strings are equal after ASCII
case folding. -/
def g_ascii_strcasecmp_eq (a b : String) : Bool :=
  a.data.map g_ascii_tolower == b.data.map g_ascii_tolower

/-- C source item `noise_control_mode_from_string` from `airpods_state.c`; the C `NULL`
argument is modelled as `none`. -/
def noise_control_mode_from_string (str : Option String) : NoiseControlMode :=
  match str with
  | none => NoiseControlMode.OFF
  | some s =>
    if g_ascii_strcasecmp_eq s "anc" ||
       g_ascii_strcasecmp_eq s "noise_cancellation" ||
       g_ascii_strcasecmp_eq s "cancellation" then NoiseControlMode.ANC
    else if g_ascii_strcasecmp_eq s "transparency" ||
            g_ascii_strcasecmp_eq s "transparent" then NoiseControlMode.TRANSPARENCY
    else if g_ascii_strcasecmp_eq s "adaptive" then NoiseControlMode.ADAPTIVE
    else NoiseControlMode.OFF

/- ============================ media controller ============================ -/

/-- C source item `EarPauseMode` from `media_control.h`. -/
inductive EarPauseMode
  | DISABLED
  | ONE_OUT
  | BOTH_OUT
deriving DecidableEq, Repr, Inhabited

/-- C source item `struct MediaControl` from `media_control.c` (the `GDBusConnection` is
ambient: the D-Bus world is passed separately as `MprisEnv`). -/
structure MediaControl where
  ear_pause_mode : EarPauseMode
  paused_players : List String
  prev_left_in_ear : Bool
  prev_right_in_ear : Bool
  prev_state_valid : Bool
deriving DecidableEq, Repr, Inhabited

/-- The D-Bus session-bus world seen by the media controller: the bus names,
each player's `PlaybackStatus` reply (`none` = the property call failed) and
whether its `Pause` call succeeds. -/
structure MprisEnv where
  busNames : List String
  playbackStatus : String → Option String
  pauseOk : String → Bool

/-- A media command issued over the bus (`player_pause` / `player_play`). -/
inductive MediaCmd
  | pause (name : String)
  | play (name : String)
deriving DecidableEq, Repr

/-- C source item `media_control_new` from `media_control.c`: fields after `g_new0` plus
the explicit initialisation (`EAR_PAUSE_ONE_OUT`, empty list, invalid
previous state). -/
def media_control_new : MediaControl :=
  { ear_pause_mode := EarPauseMode.ONE_OUT,
    paused_players := [],
    prev_left_in_ear := false,
    prev_right_in_ear := false,
    prev_state_valid := false }

/-- C source item `media_control_set_ear_pause_mode` from `media_control.c`; it assigns
only the mode field. -/
def media_control_set_ear_pause_mode (mc : MediaControl) (mode : EarPauseMode) :
    MediaControl :=
  { mc with ear_pause_mode := mode }

/-- C source item `get_mpris_players` from `media_control.c`: bus names starting with
`org.mpris.MediaPlayer2.` (`g_str_has_prefix`, modelled on the character
lists). -/
def get_mpris_players (env : MprisEnv) : List String :=
  env.busNames.filter (fun n => "org.mpris.MediaPlayer2.".data.isPrefixOf n.data)

/-- The player loop of `media_control_pause_all`: for each name whose
playback status reads `Playing`, `Pause` is invoked; names whose `Pause`
succeeded are collected.  Returns (collected names, commands issued). -/
def media_pause_loop (env : MprisEnv) : List String → List String × List MediaCmd
  | [] => ([], [])
  | p :: rest =>
    let tail := media_pause_loop env rest
    if env.playbackStatus p = some "Playing" then
      if env.pauseOk p then (p :: tail.1, MediaCmd.pause p :: tail.2)
      else (tail.1, MediaCmd.pause p :: tail.2)
    else tail

/-- C source item `media_control_pause_all` from `media_control.c`: clears the stored set,
then repopulates it with the players it successfully paused. -/
def media_control_pause_all (env : MprisEnv) (mc : MediaControl) :
    MediaControl × List MediaCmd :=
  let r := media_pause_loop env (get_mpris_players env)
  ({ mc with paused_players := r.1 }, r.2)

/-- C source item `media_control_resume` from `media_control.c`: `Play` on exactly the
stored set, then clear it. -/
def media_control_resume (mc : MediaControl) : MediaControl × List MediaCmd :=
  ({ mc with paused_players := [] }, mc.paused_players.map MediaCmd.play)

/-- Which bulk media action `media_control_on_ear_detection_changed` fires. -/
inductive EarAction
  | noAction
  | pauseAll
  | resume
deriving DecidableEq, Repr

/-- The "out" predicate of the edge detector (`pods_out` in
`media_control_on_ear_detection_changed`). -/
def ear_pods_out (mode : EarPauseMode) (l r : Bool) : Bool :=
  match mode with
  | EarPauseMode.ONE_OUT => !l || !r
  | EarPauseMode.BOTH_OUT => !l && !r
  | EarPauseMode.DISABLED => false

/-- The "in" predicate of the edge detector (`pods_in`). -/
def ear_pods_in (mode : EarPauseMode) (l r : Bool) : Bool :=
  match mode with
  | EarPauseMode.ONE_OUT => l && r
  | EarPauseMode.BOTH_OUT => l || r
  | EarPauseMode.DISABLED => false

/-- C source item `media_control_on_ear_detection_changed` from `media_control.c`, with the
call to `media_control_pause_all` / `media_control_resume` abstracted as the
returned `EarAction`.  As in the C code, the previous state is recorded
unconditionally (once past the DISABLED early return) and `prev_pods_in` is
computed but never used. -/
def media_control_on_ear_detection_changed (mc : MediaControl)
    (left_in_ear right_in_ear : Bool) : MediaControl × EarAction :=
  if mc.ear_pause_mode = EarPauseMode.DISABLED then (mc, EarAction.noAction)
  else
    let pods_out := ear_pods_out mc.ear_pause_mode left_in_ear right_in_ear
    let pods_in := ear_pods_in mc.ear_pause_mode left_in_ear right_in_ear
    let prev_pods_out :=
      ear_pods_out mc.ear_pause_mode mc.prev_left_in_ear mc.prev_right_in_ear
    let should_pause := mc.prev_state_valid && (!prev_pods_out && pods_out)
    let should_resume := mc.prev_state_valid && (prev_pods_out && pods_in)
    let mc1 := { mc with prev_left_in_ear := left_in_ear,
                         prev_right_in_ear := right_in_ear,
                         prev_state_valid := true }
    if should_pause then (mc1, EarAction.pauseAll)
    else if should_resume then (mc1, EarAction.resume)
    else (mc1, EarAction.noAction)

/- ============================ orchestrator ============================ -/

/-- The bit-mask construction in `on_set_listening_modes` (`main.c`). -/
def listening_modes_mask (off transparency anc adaptive : Bool) : Nat :=
  (if off then AAP_LISTENING_MODE_OFF else 0) |||
  (if transparency then AAP_LISTENING_MODE_TRANSPARENCY else 0) |||
  (if anc then AAP_LISTENING_MODE_ANC else 0) |||
  (if adaptive then AAP_LISTENING_MODE_ADAPTIVE else 0)

/-- The enabled-mode count in `on_set_listening_modes` (`main.c`). -/
def listening_modes_count (off transparency anc adaptive : Bool) : Nat :=
  (if off then 1 else 0) + (if transparency then 1 else 0) +
  (if anc then 1 else 0) + (if adaptive then 1 else 0)

/-- C source item `on_set_listening_modes` from `main.c`, reduced to its observable effect:
the frame handed to `bt_connection_send` (if any) and the Device State after
the call.  Config persistence and signal emission are external I/O. -/
def on_set_listening_modes (connected : Bool)
    (off transparency anc adaptive : Bool) (st : AirPodsState) :
    Option (List Nat) × AirPodsState :=
  if !connected then (none, st)
  else if listening_modes_count off transparency anc adaptive < 2 then (none, st)
  else
    (some (aap_build_listening_modes_cmd
             (listening_modes_mask off transparency anc adaptive)),
     airpods_state_set_listening_modes st off transparency anc adaptive)

/-- C source item `on_set_noise_control` from `main.c`: the frame sent, if connected. -/
def on_set_noise_control (connected : Bool) (mode : NoiseControlMode) :
    Option (List Nat) :=
  if connected then some (aap_build_noise_control_cmd mode) else none

/-- C source item `on_set_adaptive_level` from `main.c`: the frame sent, if connected. -/
def on_set_adaptive_level (connected : Bool) (level : Int) : Option (List Nat) :=
  if connected then some (aap_build_adaptive_level_cmd level) else none

/-- The `SetNoiseControlMode` path: `handle_method_call` in `dbus_service.c`
decodes the string via `noise_control_mode_from_string` and invokes the
registered callback, which is `on_set_noise_control`. -/
def handle_set_noise_control_mode (connected : Bool) (mode_str : Option String) :
    Option (List Nat) :=
  on_set_noise_control connected (noise_control_mode_from_string mode_str)

/-- The `BT_STATE_DISCONNECTED` branch of `on_bt_state_changed` (`main.c`):
Device State is reset via `airpods_state_reset` (signal emission is I/O). -/
def on_bt_state_changed_disconnected (st : AirPodsState) : AirPodsState :=
  airpods_state_reset st

/-- How `on_bt_data_received` (`main.c`) disposes of an incoming buffer:
non-`OK` parses are dropped, with a debug log only when the result is not
`UNKNOWN_OPCODE`. -/
inductive PacketDisposition
  | processed
  | dropped_logged
  | dropped_silently
deriving DecidableEq, Repr

/-- The parse-and-drop prologue of `on_bt_data_received` from `main.c`. -/
def on_bt_data_received_disposition (data : List Nat) (r0 : AapParsedPacket) :
    PacketDisposition :=
  let result := (aap_parse_packet data r0).1
  if result ≠ AapParseResult.OK then
    if result ≠ AapParseResult.UNKNOWN_OPCODE then PacketDisposition.dropped_logged
    else PacketDisposition.dropped_silently
  else PacketDisposition.processed

/- ============================ helper lemmas ============================ -/

/-- Levels produced by the battery parser: the sentinel or a percentage. -/
def level_ok (x : Int) : Prop := x = -1 ∨ (0 ≤ x ∧ x ≤ 100)

lemma apply_battery_record_level_ok (data : List Nat) (off : Nat)
    (b : AapBatteryData)
    (hl : level_ok b.left_level) (hr : level_ok b.right_level)
    (hc : level_ok b.case_level) :
    level_ok (apply_battery_record data off b).left_level ∧
    level_ok (apply_battery_record data off b).right_level ∧
    level_ok (apply_battery_record data off b).case_level := by
  unfold level_ok at *
  simp only [apply_battery_record]
  split_ifs <;> refine ⟨?_, ?_, ?_⟩ <;> dsimp only <;> omega

lemma battery_fold_level_ok (data : List Nat) (l : List Nat) (b : AapBatteryData)
    (hl : level_ok b.left_level) (hr : level_ok b.right_level)
    (hc : level_ok b.case_level) :
    level_ok ((l.foldl (fun b i => apply_battery_record data (7 + i * 5) b) b).left_level) ∧
    level_ok ((l.foldl (fun b i => apply_battery_record data (7 + i * 5) b) b).right_level) ∧
    level_ok ((l.foldl (fun b i => apply_battery_record data (7 + i * 5) b) b).case_level) := by
  induction l generalizing b with
  | nil => exact ⟨hl, hr, hc⟩
  | cons x xs ih =>
    have h := apply_battery_record_level_ok data (7 + x * 5) b hl hr hc
    exact ih _ h.1 h.2.1 h.2.2

lemma apply_battery_record_left_unchanged (data : List Nat) (off : Nat)
    (b : AapBatteryData)
    (h1 : byteAt data off ≠ AAP_BATTERY_SINGLE)
    (h4 : byteAt data off ≠ AAP_BATTERY_LEFT) :
    (apply_battery_record data off b).left_level = b.left_level ∧
    (apply_battery_record data off b).left_status = b.left_status := by
  simp only [apply_battery_record]
  split_ifs <;> simp_all

lemma apply_battery_record_right_unchanged (data : List Nat) (off : Nat)
    (b : AapBatteryData)
    (h2 : byteAt data off ≠ AAP_BATTERY_RIGHT) :
    (apply_battery_record data off b).right_level = b.right_level ∧
    (apply_battery_record data off b).right_status = b.right_status := by
  simp only [apply_battery_record]
  split_ifs <;> simp_all

lemma apply_battery_record_case_unchanged (data : List Nat) (off : Nat)
    (b : AapBatteryData)
    (h8 : byteAt data off ≠ AAP_BATTERY_CASE) :
    (apply_battery_record data off b).case_level = b.case_level ∧
    (apply_battery_record data off b).case_status = b.case_status := by
  simp only [apply_battery_record]
  split_ifs <;> simp_all

lemma battery_fold_left_absent (data : List Nat) (l : List Nat) (b : AapBatteryData)
    (h : ∀ i ∈ l, byteAt data (7 + i * 5) ≠ AAP_BATTERY_SINGLE ∧
                  byteAt data (7 + i * 5) ≠ AAP_BATTERY_LEFT) :
    (l.foldl (fun b i => apply_battery_record data (7 + i * 5) b) b).left_level = b.left_level ∧
    (l.foldl (fun b i => apply_battery_record data (7 + i * 5) b) b).left_status = b.left_status := by
  induction l generalizing b with
  | nil => exact ⟨rfl, rfl⟩
  | cons x xs ih =>
    have hx := h x (List.mem_cons_self x xs)
    have hstep := apply_battery_record_left_unchanged data (7 + x * 5) b hx.1 hx.2
    have ihx := ih (apply_battery_record data (7 + x * 5) b)
      (fun i hi => h i (List.mem_cons_of_mem x hi))
    exact ⟨hstep.1 ▸ ihx.1, hstep.2 ▸ ihx.2⟩

lemma battery_fold_right_absent (data : List Nat) (l : List Nat) (b : AapBatteryData)
    (h : ∀ i ∈ l, byteAt data (7 + i * 5) ≠ AAP_BATTERY_RIGHT) :
    (l.foldl (fun b i => apply_battery_record data (7 + i * 5) b) b).right_level = b.right_level ∧
    (l.foldl (fun b i => apply_battery_record data (7 + i * 5) b) b).right_status = b.right_status := by
  induction l generalizing b with
  | nil => exact ⟨rfl, rfl⟩
  | cons x xs ih =>
    have hstep := apply_battery_record_right_unchanged data (7 + x * 5) b
      (h x (List.mem_cons_self x xs))
    have ihx := ih (apply_battery_record data (7 + x * 5) b)
      (fun i hi => h i (List.mem_cons_of_mem x hi))
    exact ⟨hstep.1 ▸ ihx.1, hstep.2 ▸ ihx.2⟩

lemma battery_fold_case_absent (data : List Nat) (l : List Nat) (b : AapBatteryData)
    (h : ∀ i ∈ l, byteAt data (7 + i * 5) ≠ AAP_BATTERY_CASE) :
    (l.foldl (fun b i => apply_battery_record data (7 + i * 5) b) b).case_level = b.case_level ∧
    (l.foldl (fun b i => apply_battery_record data (7 + i * 5) b) b).case_status = b.case_status := by
  induction l generalizing b with
  | nil => exact ⟨rfl, rfl⟩
  | cons x xs ih =>
    have hstep := apply_battery_record_case_unchanged data (7 + x * 5) b
      (h x (List.mem_cons_self x xs))
    have ihx := ih (apply_battery_record data (7 + x * 5) b)
      (fun i hi => h i (List.mem_cons_of_mem x hi))
    exact ⟨hstep.1 ▸ ihx.1, hstep.2 ▸ ihx.2⟩

lemma aap_parse_battery_ok (data : List Nat) (b0 : AapBatteryData)
    (h4 : byteAt data 4 = AAP_OPCODE_BATTERY) (h5 : byteAt data 5 = 0)
    (hc1 : 1 ≤ byteAt data 6) (hc3 : byteAt data 6 ≤ 3)
    (hlen : 7 + byteAt data 6 * 5 ≤ data.length) :
    aap_parse_battery data b0 =
      (AapParseResult.OK,
       (List.range (byteAt data 6)).foldl
         (fun b i => apply_battery_record data (7 + i * 5) b) battery_sentinel) := by
  unfold aap_parse_battery
  rw [if_neg, if_neg, if_neg, if_neg]
  · omega
  · omega
  · simp [h4, h5]
  · simp only [AAP_MIN_BATTERY_SIZE]; omega

/- ============================ C7 ============================ -/

/-- C7: for every integer argument, the level byte at offset 7 of the built
adaptive-level frame lies in [0, 100]; arguments below 0 encode as 0,
arguments above 100 as 100, and arguments in range are embedded unchanged. -/
theorem C7_adaptive_level_clamped (level : Int) :
    byteAt (aap_build_adaptive_level_cmd level) 7 ≤ 100 ∧
    (level < 0 → byteAt (aap_build_adaptive_level_cmd level) 7 = 0) ∧
    (100 < level → byteAt (aap_build_adaptive_level_cmd level) 7 = 100) ∧
    (0 ≤ level → level ≤ 100 →
      (byteAt (aap_build_adaptive_level_cmd level) 7 : Int) = level) := by
  have h : byteAt (aap_build_adaptive_level_cmd level) 7 =
      (if level < 0 then (0 : Int) else if level > 100 then 100 else level).toNat := rfl
  refine ⟨?_, ?_, ?_, ?_⟩ <;> rw [h] <;> split_ifs <;> intros <;> omega

theorem C7_adaptive_level_clamped_witness :
    ((-7 : Int) < 0 ∧ byteAt (aap_build_adaptive_level_cmd (-7)) 7 = 0) ∧
    (100 < (250 : Int) ∧ byteAt (aap_build_adaptive_level_cmd 250) 7 = 100) ∧
    ((byteAt (aap_build_adaptive_level_cmd 42) 7 : Int) = 42) :=
  ⟨⟨by decide, (C7_adaptive_level_clamped (-7)).2.1 (by decide)⟩,
   ⟨by decide, (C7_adaptive_level_clamped 250).2.2.1 (by decide)⟩,
   (C7_adaptive_level_clamped 42).2.2.2 (by decide) (by decide)⟩

/- ============================ C6 ============================ -/

/-- C6: after a `Disconnected` transport event, Device State has
`connected = false`, all three battery components at the sentinel
(level -1, status Unknown, unavailable), the identity fields cleared, the
model back to Unknown, and the noise-control / conversational-awareness /
adaptive-level / in-ear state back at their `airpods_state_init` defaults.
The `primary_left` orientation bit is not written by the reset, but it is
`true` in every state the daemon can reach (the parser hard-codes it), and
then stays at its default `true`. -/
theorem C6_disconnect_resets_state (st : AirPodsState)
    (hp : st.ear_primary_left = true) :
    (on_bt_state_changed_disconnected st).connected = false ∧
    (on_bt_state_changed_disconnected st).device_name = none ∧
    (on_bt_state_changed_disconnected st).device_address = none ∧
    (on_bt_state_changed_disconnected st).model = AirPodsModel.UNKNOWN ∧
    (on_bt_state_changed_disconnected st).battery_left.level = -1 ∧
    (on_bt_state_changed_disconnected st).battery_left.status = BatteryStatus.UNKNOWN ∧
    (on_bt_state_changed_disconnected st).battery_right.level = -1 ∧
    (on_bt_state_changed_disconnected st).battery_right.status = BatteryStatus.UNKNOWN ∧
    (on_bt_state_changed_disconnected st).battery_case.level = -1 ∧
    (on_bt_state_changed_disconnected st).battery_case.status = BatteryStatus.UNKNOWN ∧
    (on_bt_state_changed_disconnected st).noise_control_mode =
      airpods_state_init.noise_control_mode ∧
    (on_bt_state_changed_disconnected st).conversational_awareness =
      airpods_state_init.conversational_awareness ∧
    (on_bt_state_changed_disconnected st).adaptive_noise_level =
      airpods_state_init.adaptive_noise_level ∧
    (on_bt_state_changed_disconnected st).ear_left_in_ear =
      airpods_state_init.ear_left_in_ear ∧
    (on_bt_state_changed_disconnected st).ear_right_in_ear =
      airpods_state_init.ear_right_in_ear ∧
    (on_bt_state_changed_disconnected st).ear_primary_left =
      airpods_state_init.ear_primary_left :=
  ⟨rfl, rfl, rfl, rfl, rfl, rfl, rfl, rfl, rfl, rfl, rfl, rfl, rfl, rfl, rfl, hp⟩

theorem C6_disconnect_resets_state_witness :
    (on_bt_state_changed_disconnected
      (airpods_state_set_battery airpods_state_init
        90 BatteryStatus.DISCHARGING 80 BatteryStatus.DISCHARGING
        100 BatteryStatus.CHARGING)).connected = false ∧
    (on_bt_state_changed_disconnected
      (airpods_state_set_battery airpods_state_init
        90 BatteryStatus.DISCHARGING 80 BatteryStatus.DISCHARGING
        100 BatteryStatus.CHARGING)).battery_left.level = -1 :=
  ⟨(C6_disconnect_resets_state _ rfl).1,
   (C6_disconnect_resets_state _ rfl).2.2.2.2.1⟩

/- ============================ C2 ============================ -/

/-- C2 (amended): the first call to `on-ear-detection-changed` after
construction emits no media command, because the previous-state-valid bit
starts false and a call with that bit false only records the ear state (when
the policy is not Disabled).  Changing the ear-pause policy, however, does
NOT invalidate the previous state (`media_control_set_ear_pause_mode` writes
only the mode field), so the first call after a policy change is an ordinary
edge-detection step and may emit a command. -/
theorem C2_first_call_no_command :
    media_control_new.prev_state_valid = false ∧
    (∀ (mc : MediaControl) (l r : Bool), mc.prev_state_valid = false →
      (media_control_on_ear_detection_changed mc l r).2 = EarAction.noAction ∧
      (mc.ear_pause_mode ≠ EarPauseMode.DISABLED →
        (media_control_on_ear_detection_changed mc l r).1.prev_left_in_ear = l ∧
        (media_control_on_ear_detection_changed mc l r).1.prev_right_in_ear = r ∧
        (media_control_on_ear_detection_changed mc l r).1.prev_state_valid = true)) ∧
    (∀ (mc : MediaControl) (mode : EarPauseMode),
      (media_control_set_ear_pause_mode mc mode).prev_state_valid =
        mc.prev_state_valid) := by
  refine ⟨rfl, ?_, fun mc mode => rfl⟩
  intro mc l r h
  unfold media_control_on_ear_detection_changed
  by_cases hd : mc.ear_pause_mode = EarPauseMode.DISABLED
  · simp [hd]
  · simp [hd, h]

theorem C2_first_call_no_command_witness :
    (media_control_on_ear_detection_changed media_control_new true true).2 =
      EarAction.noAction :=
  ((C2_first_call_no_command.2.1 media_control_new true true rfl).1)

/-- C2 counterexample: construct the controller, deliver both-in-ear (records
state, no command), switch the policy from One-Out to Both-Out, then deliver
both-out-of-ear.  This is the first call after the policy change, yet it
fires pause-all, because the policy change left the previous state valid. -/
theorem C2_counterexample :
    (media_control_on_ear_detection_changed
      (media_control_set_ear_pause_mode
        (media_control_on_ear_detection_changed media_control_new true true).1
        EarPauseMode.BOTH_OUT)
      false false).2 = EarAction.pauseAll := by
  rfl

/- ============================ C4 ============================ -/

lemma media_pause_loop_fst (env : MprisEnv) (l : List String) :
    (media_pause_loop env l).1 =
      l.filter (fun p => decide (env.playbackStatus p = some "Playing") &&
                         env.pauseOk p) := by
  induction l with
  | nil => rfl
  | cons p rest ih =>
    unfold media_pause_loop
    by_cases hs : env.playbackStatus p = some "Playing"
    · by_cases hp : env.pauseOk p = true
      · simp [hs, hp, List.filter_cons, ih]
      · simp [hs, Bool.eq_false_iff.1 (Bool.not_eq_true _ ▸ hp), List.filter_cons, ih]
    · simp [hs, List.filter_cons, ih]

/-- C4: in every pause/resume cycle, `media_control_resume` invokes `Play`
on exactly the list of player names that `media_control_pause_all` stored in
the same cycle — the players whose status read `Playing` and whose `Pause`
call succeeded — and then clears the stored set; in particular every `Play`
command names a player the controller itself paused. -/
theorem C4_resume_only_paused (env : MprisEnv) (mc : MediaControl) :
    (media_control_resume (media_control_pause_all env mc).1).2 =
      ((media_control_pause_all env mc).1.paused_players).map MediaCmd.play ∧
    (media_control_pause_all env mc).1.paused_players =
      (get_mpris_players env).filter
        (fun p => decide (env.playbackStatus p = some "Playing") &&
                  env.pauseOk p) ∧
    (media_control_resume (media_control_pause_all env mc).1).1.paused_players = [] ∧
    (∀ p, MediaCmd.play p ∈ (media_control_resume (media_control_pause_all env mc).1).2 →
      p ∈ (media_control_pause_all env mc).1.paused_players) := by
  refine ⟨rfl, media_pause_loop_fst env _, rfl, ?_⟩
  intro p hp
  have h : MediaCmd.play p ∈
      ((media_control_pause_all env mc).1.paused_players).map MediaCmd.play := hp
  rcases List.mem_map.1 h with ⟨q, hq, hpq⟩
  cases hpq
  exact hq

theorem C4_resume_only_paused_witness :
    "org.mpris.MediaPlayer2.vlc" ∈
      (media_control_pause_all
        { busNames := ["org.mpris.MediaPlayer2.vlc", "org.gnome.Shell"],
          playbackStatus := fun _ => some "Playing",
          pauseOk := fun _ => true }
        media_control_new).1.paused_players :=
  (C4_resume_only_paused
    { busNames := ["org.mpris.MediaPlayer2.vlc", "org.gnome.Shell"],
      playbackStatus := fun _ => some "Playing",
      pauseOk := fun _ => true }
    media_control_new).2.2.2 "org.mpris.MediaPlayer2.vlc" (by decide)

/- ============================ C1 ============================ -/

/-- C1 (amended): feeding the 11-byte frames of the noise-control builder
(any of the four modes), the listening-modes builder (mask from flags with at
least two set) and the conversational-awareness builder (either boolean) to
`aap_parse_packet` returns Ok with a parsed packet of the matching type whose
decoded value equals the builder's input.  The adaptive-level builder's frame
(control sub-opcode `0x2E`), by contrast, is not decoded: `aap_parse_packet`
returns Ok but classifies it as an unknown control sub-type (`type` stays
`UNKNOWN`) and recovers no level. -/
theorem C1_roundtrip :
    (∀ (mode : NoiseControlMode) (r0 : AapParsedPacket),
      (aap_parse_packet (aap_build_noise_control_cmd mode) r0).1 = AapParseResult.OK ∧
      (aap_parse_packet (aap_build_noise_control_cmd mode) r0).2.type =
        AapPacketType.NOISE_CONTROL ∧
      (aap_parse_packet (aap_build_noise_control_cmd mode) r0).2.noise_control = mode) ∧
    (∀ (off transparency anc adaptive : Bool) (r0 : AapParsedPacket),
      2 ≤ listening_modes_count off transparency anc adaptive →
      (aap_parse_packet
        (aap_build_listening_modes_cmd
          (listening_modes_mask off transparency anc adaptive)) r0).1 =
        AapParseResult.OK ∧
      (aap_parse_packet
        (aap_build_listening_modes_cmd
          (listening_modes_mask off transparency anc adaptive)) r0).2.type =
        AapPacketType.LISTENING_MODES ∧
      (aap_parse_packet
        (aap_build_listening_modes_cmd
          (listening_modes_mask off transparency anc adaptive))
          r0).2.listening_modes.off_enabled = off ∧
      (aap_parse_packet
        (aap_build_listening_modes_cmd
          (listening_modes_mask off transparency anc adaptive))
          r0).2.listening_modes.transparency_enabled = transparency ∧
      (aap_parse_packet
        (aap_build_listening_modes_cmd
          (listening_modes_mask off transparency anc adaptive))
          r0).2.listening_modes.anc_enabled = anc ∧
      (aap_parse_packet
        (aap_build_listening_modes_cmd
          (listening_modes_mask off transparency anc adaptive))
          r0).2.listening_modes.adaptive_enabled = adaptive ∧
      (aap_parse_packet
        (aap_build_listening_modes_cmd
          (listening_modes_mask off transparency anc adaptive))
          r0).2.listening_modes.raw_value =
        listening_modes_mask off transparency anc adaptive) ∧
    (∀ (enable : Bool) (r0 : AapParsedPacket),
      (aap_parse_packet (aap_build_conv_awareness_cmd enable) r0).1 =
        AapParseResult.OK ∧
      (aap_parse_packet (aap_build_conv_awareness_cmd enable) r0).2.type =
        AapPacketType.CONV_AWARENESS ∧
      (aap_parse_packet (aap_build_conv_awareness_cmd enable)
        r0).2.conversational_awareness = enable) ∧
    (∀ (level : Int) (r0 : AapParsedPacket),
      aap_parse_packet (aap_build_adaptive_level_cmd level) r0 =
        (AapParseResult.OK, { r0 with type := AapPacketType.UNKNOWN })) := by
  refine ⟨?_, ?_, ?_, ?_⟩
  · intro mode r0
    cases mode <;> exact ⟨rfl, rfl, rfl⟩
  · intro off transparency anc adaptive r0 h
    revert h
    cases off <;> cases transparency <;> cases anc <;> cases adaptive <;> intro h <;>
      first
        | exact absurd h (by decide)
        | exact ⟨rfl, rfl, rfl, rfl, rfl, rfl, rfl⟩
  · intro enable r0
    cases enable <;> exact ⟨rfl, rfl, rfl⟩
  · intro level r0
    rfl

theorem C1_roundtrip_witness :
    (aap_parse_packet
      (aap_build_listening_modes_cmd (listening_modes_mask false true true false))
      default).1 = AapParseResult.OK ∧
    (aap_parse_packet
      (aap_build_listening_modes_cmd (listening_modes_mask false true true false))
      default).2.type = AapPacketType.LISTENING_MODES ∧
    (aap_parse_packet
      (aap_build_listening_modes_cmd (listening_modes_mask false true true false))
      default).2.listening_modes.off_enabled = false ∧
    (aap_parse_packet
      (aap_build_listening_modes_cmd (listening_modes_mask false true true false))
      default).2.listening_modes.transparency_enabled = true ∧
    (aap_parse_packet
      (aap_build_listening_modes_cmd (listening_modes_mask false true true false))
      default).2.listening_modes.anc_enabled = true ∧
    (aap_parse_packet
      (aap_build_listening_modes_cmd (listening_modes_mask false true true false))
      default).2.listening_modes.adaptive_enabled = false ∧
    (aap_parse_packet
      (aap_build_listening_modes_cmd (listening_modes_mask false true true false))
      default).2.listening_modes.raw_value =
      listening_modes_mask false true true false :=
  C1_roundtrip.2.1 false true true false default (by decide)

/-- C1 counterexample: the frame built by the adaptive-level builder for the
(already in-range) level 50 parses to a packet whose type is `UNKNOWN` — not
an adaptive-level packet type — and which is otherwise untouched, so no
decoded value equal to 50 exists in the parse result. -/
theorem C1_counterexample :
    (aap_parse_packet (aap_build_adaptive_level_cmd 50) default).1 =
      AapParseResult.OK ∧
    (aap_parse_packet (aap_build_adaptive_level_cmd 50) default).2.type =
      AapPacketType.UNKNOWN ∧
    (aap_parse_packet (aap_build_adaptive_level_cmd 50) default).2 =
      { (default : AapParsedPacket) with type := AapPacketType.UNKNOWN } :=
  ⟨rfl, rfl, rfl⟩

/- ============================ C5 ============================ -/

/-- C5: for every SetListeningModes command while connected, if fewer than
two of the four flags are true then no frame is sent and Device State is
unchanged; if at least two are true, the listening-modes frame is sent with
the flag bitmask (Off=0x01, Transparency=0x02, ANC=0x04, Adaptive=0x08) at
byte offset 7 and the state updated.  Whenever a frame is emitted at all, at
least two flags were set, so every listening-modes frame reaching the codec
carries a bitmask with at least two bits. -/
theorem C5_listening_modes_guard :
    (∀ (connected off transparency anc adaptive : Bool) (st : AirPodsState),
      listening_modes_count off transparency anc adaptive < 2 →
      on_set_listening_modes connected off transparency anc adaptive st = (none, st)) ∧
    (∀ (off transparency anc adaptive : Bool) (st : AirPodsState),
      2 ≤ listening_modes_count off transparency anc adaptive →
      on_set_listening_modes true off transparency anc adaptive st =
        (some (aap_build_listening_modes_cmd
                 (listening_modes_mask off transparency anc adaptive)),
         airpods_state_set_listening_modes st off transparency anc adaptive) ∧
      byteAt (aap_build_listening_modes_cmd
                (listening_modes_mask off transparency anc adaptive)) 7 =
        listening_modes_mask off transparency anc adaptive) ∧
    (∀ (connected off transparency anc adaptive : Bool) (st : AirPodsState)
       (frame : List Nat),
      (on_set_listening_modes connected off transparency anc adaptive st).1 =
        some frame →
      2 ≤ listening_modes_count off transparency anc adaptive) ∧
    listening_modes_mask false true true false = 0x06 := by
  refine ⟨?_, ?_, ?_, rfl⟩
  · intro connected off transparency anc adaptive st h
    cases connected
    · rfl
    · simp [on_set_listening_modes, h]
  · intro off transparency anc adaptive st h
    have h2 : ¬ (listening_modes_count off transparency anc adaptive < 2) := by omega
    refine ⟨by simp [on_set_listening_modes, h2], ?_⟩
    cases off <;> cases transparency <;> cases anc <;> cases adaptive <;> rfl
  · intro connected off transparency anc adaptive st frame h
    cases connected
    · exact absurd h (by simp [on_set_listening_modes])
    · by_cases h2 : listening_modes_count off transparency anc adaptive < 2
      · rw [on_set_listening_modes, if_neg (by simp), if_pos h2] at h
        exact absurd h (by simp)
      · omega

theorem C5_listening_modes_guard_witness :
    (on_set_listening_modes false false false true false airpods_state_init =
      (none, airpods_state_init)) ∧
    (on_set_listening_modes true false true true false airpods_state_init =
      (some (aap_build_listening_modes_cmd
               (listening_modes_mask false true true false)),
       airpods_state_set_listening_modes airpods_state_init false true true false)) ∧
    byteAt (aap_build_listening_modes_cmd
              (listening_modes_mask false true true false)) 7 =
      listening_modes_mask false true true false :=
  ⟨C5_listening_modes_guard.1 false false false true false airpods_state_init
     (by decide),
   (C5_listening_modes_guard.2.1 false true true false airpods_state_init
     (by decide)).1,
   (C5_listening_modes_guard.2.1 false true true false airpods_state_init
     (by decide)).2⟩

/- ============================ C8 ============================ -/

lemma caseeq_iff (a b : String) :
    g_ascii_strcasecmp_eq a b = true ↔
      a.data.map g_ascii_tolower = b.data.map g_ascii_tolower := by
  simp [g_ascii_strcasecmp_eq]

lemma caseeq_excl (b2 : String) {s b1 : String}
    (h1 : g_ascii_strcasecmp_eq s b1 = true)
    (hne : b1.data.map g_ascii_tolower ≠ b2.data.map g_ascii_tolower) :
    g_ascii_strcasecmp_eq s b2 = false := by
  rw [Bool.eq_false_iff]
  intro h2
  rw [caseeq_iff] at h1 h2
  exact hne (h1.symm.trans h2)

/-- C8: the noise-control string decoder matches case-insensitively, mapping
"anc" / "noise_cancellation" / "cancellation" to ANC, "transparency" /
"transparent" to Transparency, "adaptive" to Adaptive, and every other
string — including NULL — to Off; and `SetNoiseControlMode("anc")` while
connected hands the transport exactly the 11 bytes
04 00 04 00 09 00 0D 02 00 00 00. -/
theorem C8_noise_control_from_string :
    (∀ s : String,
      (g_ascii_strcasecmp_eq s "anc" = true ∨
       g_ascii_strcasecmp_eq s "noise_cancellation" = true ∨
       g_ascii_strcasecmp_eq s "cancellation" = true) →
      noise_control_mode_from_string (some s) = NoiseControlMode.ANC) ∧
    (∀ s : String,
      (g_ascii_strcasecmp_eq s "transparency" = true ∨
       g_ascii_strcasecmp_eq s "transparent" = true) →
      noise_control_mode_from_string (some s) = NoiseControlMode.TRANSPARENCY) ∧
    (∀ s : String,
      g_ascii_strcasecmp_eq s "adaptive" = true →
      noise_control_mode_from_string (some s) = NoiseControlMode.ADAPTIVE) ∧
    noise_control_mode_from_string none = NoiseControlMode.OFF ∧
    (∀ s : String,
      g_ascii_strcasecmp_eq s "anc" = false →
      g_ascii_strcasecmp_eq s "noise_cancellation" = false →
      g_ascii_strcasecmp_eq s "cancellation" = false →
      g_ascii_strcasecmp_eq s "transparency" = false →
      g_ascii_strcasecmp_eq s "transparent" = false →
      g_ascii_strcasecmp_eq s "adaptive" = false →
      noise_control_mode_from_string (some s) = NoiseControlMode.OFF) ∧
    noise_control_mode_from_string (some "ANC") = NoiseControlMode.ANC ∧
    noise_control_mode_from_string (some "Transparent") =
      NoiseControlMode.TRANSPARENCY ∧
    noise_control_mode_from_string (some "bogus") = NoiseControlMode.OFF ∧
    handle_set_noise_control_mode true (some "anc") =
      some [0x04, 0x00, 0x04, 0x00, 0x09, 0x00, 0x0D, 0x02, 0x00, 0x00, 0x00] := by
  refine ⟨?_, ?_, ?_, rfl, ?_, by decide, by decide, by decide, by decide⟩
  · intro s h
    rcases h with h | h | h <;> simp [noise_control_mode_from_string, h]
  · intro s h
    rcases h with h | h
    · have h1 := caseeq_excl "anc" h (by decide)
      have h2 := caseeq_excl "noise_cancellation" h (by decide)
      have h3 := caseeq_excl "cancellation" h (by decide)
      simp [noise_control_mode_from_string, h, h1, h2, h3]
    · have h1 := caseeq_excl "anc" h (by decide)
      have h2 := caseeq_excl "noise_cancellation" h (by decide)
      have h3 := caseeq_excl "cancellation" h (by decide)
      simp [noise_control_mode_from_string, h, h1, h2, h3]
  · intro s h
    have h1 := caseeq_excl "anc" h (by decide)
    have h2 := caseeq_excl "noise_cancellation" h (by decide)
    have h3 := caseeq_excl "cancellation" h (by decide)
    have h4 := caseeq_excl "transparency" h (by decide)
    have h5 := caseeq_excl "transparent" h (by decide)
    simp [noise_control_mode_from_string, h, h1, h2, h3, h4, h5]
  · intro s h1 h2 h3 h4 h5 h6
    simp [noise_control_mode_from_string, h1, h2, h3, h4, h5, h6]

theorem C8_noise_control_from_string_witness :
    noise_control_mode_from_string (some "Noise_Cancellation") =
      NoiseControlMode.ANC :=
  C8_noise_control_from_string.1 "Noise_Cancellation" (Or.inr (Or.inl (by decide)))

/- ============================ C3 ============================ -/

/-- C3 (amended): every battery frame with N component records (1 ≤ N ≤ 3)
and sufficient length parses Ok; each parsed level is the sentinel -1 or a
value in [0, 100]; a record for the Left (or Single) / Right / Case component
embeds a wire level ≤ 100 unchanged and turns a wire level > 100 into -1;
for every component with no record in the frame the parse result holds the
sentinel (-1, Unknown) — and `airpods_state_set_battery` then overwrites the
stored slot with that sentinel rather than retaining the previous value. -/
theorem C3_battery_parse (data : List Nat) (b0 : AapBatteryData) (st : AirPodsState)
    (h4 : byteAt data 4 = AAP_OPCODE_BATTERY) (h5 : byteAt data 5 = 0)
    (hc1 : 1 ≤ byteAt data 6) (hc3 : byteAt data 6 ≤ 3)
    (hlen : 7 + byteAt data 6 * 5 ≤ data.length) :
    (aap_parse_battery data b0).1 = AapParseResult.OK ∧
    level_ok (aap_parse_battery data b0).2.left_level ∧
    level_ok (aap_parse_battery data b0).2.right_level ∧
    level_ok (aap_parse_battery data b0).2.case_level ∧
    (∀ (off : Nat) (b : AapBatteryData),
      byteAt data off = AAP_BATTERY_LEFT →
      (apply_battery_record data off b).left_level =
        (if byteAt data (off + 2) ≤ 100 then ((byteAt data (off + 2) : Int)) else -1)) ∧
    ((∀ i, i < byteAt data 6 →
        byteAt data (7 + i * 5) ≠ AAP_BATTERY_SINGLE ∧
        byteAt data (7 + i * 5) ≠ AAP_BATTERY_LEFT) →
      (aap_parse_battery data b0).2.left_level = -1 ∧
      (aap_parse_battery data b0).2.left_status = BatteryStatus.UNKNOWN) ∧
    ((∀ i, i < byteAt data 6 → byteAt data (7 + i * 5) ≠ AAP_BATTERY_RIGHT) →
      (aap_parse_battery data b0).2.right_level = -1 ∧
      (aap_parse_battery data b0).2.right_status = BatteryStatus.UNKNOWN) ∧
    ((∀ i, i < byteAt data 6 → byteAt data (7 + i * 5) ≠ AAP_BATTERY_CASE) →
      (aap_parse_battery data b0).2.case_level = -1 ∧
      (aap_parse_battery data b0).2.case_status = BatteryStatus.UNKNOWN) ∧
    ((airpods_state_set_battery st
        (aap_parse_battery data b0).2.left_level
        (aap_parse_battery data b0).2.left_status
        (aap_parse_battery data b0).2.right_level
        (aap_parse_battery data b0).2.right_status
        (aap_parse_battery data b0).2.case_level
        (aap_parse_battery data b0).2.case_status).battery_left.level =
      (aap_parse_battery data b0).2.left_level ∧
     (airpods_state_set_battery st
        (aap_parse_battery data b0).2.left_level
        (aap_parse_battery data b0).2.left_status
        (aap_parse_battery data b0).2.right_level
        (aap_parse_battery data b0).2.right_status
        (aap_parse_battery data b0).2.case_level
        (aap_parse_battery data b0).2.case_status).battery_left.status =
      (aap_parse_battery data b0).2.left_status ∧
     (airpods_state_set_battery st
        (aap_parse_battery data b0).2.left_level
        (aap_parse_battery data b0).2.left_status
        (aap_parse_battery data b0).2.right_level
        (aap_parse_battery data b0).2.right_status
        (aap_parse_battery data b0).2.case_level
        (aap_parse_battery data b0).2.case_status).battery_right.level =
      (aap_parse_battery data b0).2.right_level ∧
     (airpods_state_set_battery st
        (aap_parse_battery data b0).2.left_level
        (aap_parse_battery data b0).2.left_status
        (aap_parse_battery data b0).2.right_level
        (aap_parse_battery data b0).2.right_status
        (aap_parse_battery data b0).2.case_level
        (aap_parse_battery data b0).2.case_status).battery_right.status =
      (aap_parse_battery data b0).2.right_status ∧
     (airpods_state_set_battery st
        (aap_parse_battery data b0).2.left_level
        (aap_parse_battery data b0).2.left_status
        (aap_parse_battery data b0).2.right_level
        (aap_parse_battery data b0).2.right_status
        (aap_parse_battery data b0).2.case_level
        (aap_parse_battery data b0).2.case_status).battery_case.level =
      (aap_parse_battery data b0).2.case_level ∧
     (airpods_state_set_battery st
        (aap_parse_battery data b0).2.left_level
        (aap_parse_battery data b0).2.left_status
        (aap_parse_battery data b0).2.right_level
        (aap_parse_battery data b0).2.right_status
        (aap_parse_battery data b0).2.case_level
        (aap_parse_battery data b0).2.case_status).battery_case.status =
      (aap_parse_battery data b0).2.case_status) := by
  have hparse := aap_parse_battery_ok data b0 h4 h5 hc1 hc3 hlen
  rw [hparse]
  have hlev := battery_fold_level_ok data (List.range (byteAt data 6))
    battery_sentinel (Or.inl rfl) (Or.inl rfl) (Or.inl rfl)
  refine ⟨rfl, hlev.1, hlev.2.1, hlev.2.2, ?_, ?_, ?_, ?_,
          rfl, rfl, rfl, rfl, rfl, rfl⟩
  · intro off b hcomp
    simp [apply_battery_record, hcomp, AAP_BATTERY_SINGLE, AAP_BATTERY_LEFT]
  · intro habs
    exact battery_fold_left_absent data (List.range (byteAt data 6))
      battery_sentinel (fun i hi => habs i (List.mem_range.1 hi))
  · intro habs
    exact battery_fold_right_absent data (List.range (byteAt data 6))
      battery_sentinel (fun i hi => habs i (List.mem_range.1 hi))
  · intro habs
    exact battery_fold_case_absent data (List.range (byteAt data 6))
      battery_sentinel (fun i hi => habs i (List.mem_range.1 hi))

theorem C3_battery_parse_witness :
    (aap_parse_battery
      [0x04, 0x00, 0x04, 0x00, 0x04, 0x00, 0x03,
       0x04, 0x00, 0x5A, 0x02, 0x00,
       0x02, 0x00, 0x50, 0x02, 0x00,
       0x08, 0x00, 0x64, 0x01, 0x00] battery_sentinel).1 = AapParseResult.OK ∧
    level_ok (aap_parse_battery
      [0x04, 0x00, 0x04, 0x00, 0x04, 0x00, 0x03,
       0x04, 0x00, 0x5A, 0x02, 0x00,
       0x02, 0x00, 0x50, 0x02, 0x00,
       0x08, 0x00, 0x64, 0x01, 0x00] battery_sentinel).2.left_level :=
  ⟨(C3_battery_parse
      [0x04, 0x00, 0x04, 0x00, 0x04, 0x00, 0x03,
       0x04, 0x00, 0x5A, 0x02, 0x00,
       0x02, 0x00, 0x50, 0x02, 0x00,
       0x08, 0x00, 0x64, 0x01, 0x00] battery_sentinel airpods_state_init
      (by decide) (by decide) (by decide) (by decide) (by decide)).1,
   (C3_battery_parse
      [0x04, 0x00, 0x04, 0x00, 0x04, 0x00, 0x03,
       0x04, 0x00, 0x5A, 0x02, 0x00,
       0x02, 0x00, 0x50, 0x02, 0x00,
       0x08, 0x00, 0x64, 0x01, 0x00] battery_sentinel airpods_state_init
      (by decide) (by decide) (by decide) (by decide) (by decide)).2.1⟩

/-- C3 counterexample: a frame carrying only the Case component parses Ok,
and applying the battery update overwrites the previously stored Left level
90 with the sentinel -1 — the previous value of the absent component is NOT
retained. -/
theorem C3_counterexample :
    (aap_parse_battery
      [0x04, 0x00, 0x04, 0x00, 0x04, 0x00, 0x01, 0x08, 0x00, 0x64, 0x01, 0x00]
      battery_sentinel).1 = AapParseResult.OK ∧
    (airpods_state_set_battery airpods_state_init
      90 BatteryStatus.DISCHARGING 80 BatteryStatus.DISCHARGING
      100 BatteryStatus.CHARGING).battery_left.level = 90 ∧
    (airpods_state_set_battery
      (airpods_state_set_battery airpods_state_init
        90 BatteryStatus.DISCHARGING 80 BatteryStatus.DISCHARGING
        100 BatteryStatus.CHARGING)
      (aap_parse_battery
        [0x04, 0x00, 0x04, 0x00, 0x04, 0x00, 0x01, 0x08, 0x00, 0x64, 0x01, 0x00]
        battery_sentinel).2.left_level
      (aap_parse_battery
        [0x04, 0x00, 0x04, 0x00, 0x04, 0x00, 0x01, 0x08, 0x00, 0x64, 0x01, 0x00]
        battery_sentinel).2.left_status
      (aap_parse_battery
        [0x04, 0x00, 0x04, 0x00, 0x04, 0x00, 0x01, 0x08, 0x00, 0x64, 0x01, 0x00]
        battery_sentinel).2.right_level
      (aap_parse_battery
        [0x04, 0x00, 0x04, 0x00, 0x04, 0x00, 0x01, 0x08, 0x00, 0x64, 0x01, 0x00]
        battery_sentinel).2.right_status
      (aap_parse_battery
        [0x04, 0x00, 0x04, 0x00, 0x04, 0x00, 0x01, 0x08, 0x00, 0x64, 0x01, 0x00]
        battery_sentinel).2.case_level
      (aap_parse_battery
        [0x04, 0x00, 0x04, 0x00, 0x04, 0x00, 0x01, 0x08, 0x00, 0x64, 0x01, 0x00]
        battery_sentinel).2.case_status).battery_left.level = -1 := by
  refine ⟨rfl, rfl, ?_⟩
  decide

/- ============================ C10 ============================ -/

lemma apply_battery_record_unknown (data : List Nat) (off : Nat)
    (b : AapBatteryData)
    (h1 : byteAt data off ≠ AAP_BATTERY_SINGLE)
    (h2 : byteAt data off ≠ AAP_BATTERY_RIGHT)
    (h4 : byteAt data off ≠ AAP_BATTERY_LEFT)
    (h8 : byteAt data off ≠ AAP_BATTERY_CASE) :
    apply_battery_record data off b = b := by
  simp only [apply_battery_record]
  split_ifs <;> simp_all

lemma battery_fold_unknown (data : List Nat) (l : List Nat) (b : AapBatteryData)
    (h : ∀ i ∈ l, byteAt data (7 + i * 5) ≠ AAP_BATTERY_SINGLE ∧
                  byteAt data (7 + i * 5) ≠ AAP_BATTERY_RIGHT ∧
                  byteAt data (7 + i * 5) ≠ AAP_BATTERY_LEFT ∧
                  byteAt data (7 + i * 5) ≠ AAP_BATTERY_CASE) :
    l.foldl (fun b i => apply_battery_record data (7 + i * 5) b) b = b := by
  induction l generalizing b with
  | nil => rfl
  | cons x xs ih =>
    have hx := h x (List.mem_cons_self x xs)
    have hstep := apply_battery_record_unknown data (7 + x * 5) b
      hx.1 hx.2.1 hx.2.2.1 hx.2.2.2
    calc (x :: xs).foldl (fun b i => apply_battery_record data (7 + i * 5) b) b
        = xs.foldl (fun b i => apply_battery_record data (7 + i * 5) b)
            (apply_battery_record data (7 + x * 5) b) := rfl
      _ = xs.foldl (fun b i => apply_battery_record data (7 + i * 5) b) b := by
            rw [hstep]
      _ = b := ih b (fun i hi => h i (List.mem_cons_of_mem x hi))

/-- C10: in a battery frame that passes header and count validation, a
5-byte record whose component byte is none of 0x01 (Single), 0x02 (Right),
0x04 (Left), 0x08 (Case) leaves the battery data untouched; parsing still
returns Ok, and a frame all of whose records have unknown components yields
the all-sentinel result. -/
theorem C10_unknown_component_skipped (data : List Nat) (b0 : AapBatteryData)
    (h4 : byteAt data 4 = AAP_OPCODE_BATTERY) (h5 : byteAt data 5 = 0)
    (hc1 : 1 ≤ byteAt data 6) (hc3 : byteAt data 6 ≤ 3)
    (hlen : 7 + byteAt data 6 * 5 ≤ data.length) :
    (aap_parse_battery data b0).1 = AapParseResult.OK ∧
    (∀ (off : Nat) (b : AapBatteryData),
      byteAt data off ≠ AAP_BATTERY_SINGLE →
      byteAt data off ≠ AAP_BATTERY_RIGHT →
      byteAt data off ≠ AAP_BATTERY_LEFT →
      byteAt data off ≠ AAP_BATTERY_CASE →
      apply_battery_record data off b = b) ∧
    ((∀ i, i < byteAt data 6 →
        byteAt data (7 + i * 5) ≠ AAP_BATTERY_SINGLE ∧
        byteAt data (7 + i * 5) ≠ AAP_BATTERY_RIGHT ∧
        byteAt data (7 + i * 5) ≠ AAP_BATTERY_LEFT ∧
        byteAt data (7 + i * 5) ≠ AAP_BATTERY_CASE) →
      (aap_parse_battery data b0).2 = battery_sentinel) := by
  have hparse := aap_parse_battery_ok data b0 h4 h5 hc1 hc3 hlen
  rw [hparse]
  refine ⟨rfl, fun off b h1 h2 h3 h8 =>
    apply_battery_record_unknown data off b h1 h2 h3 h8, ?_⟩
  intro habs
  exact battery_fold_unknown data (List.range (byteAt data 6)) battery_sentinel
    (fun i hi => habs i (List.mem_range.1 hi))

theorem C10_unknown_component_skipped_witness :
    (aap_parse_battery
      [0x04, 0x00, 0x04, 0x00, 0x04, 0x00, 0x01, 0x03, 0x00, 0x50, 0x01, 0x00]
      battery_sentinel).1 = AapParseResult.OK ∧
    (aap_parse_battery
      [0x04, 0x00, 0x04, 0x00, 0x04, 0x00, 0x01, 0x03, 0x00, 0x50, 0x01, 0x00]
      battery_sentinel).2 = battery_sentinel :=
  ⟨(C10_unknown_component_skipped
      [0x04, 0x00, 0x04, 0x00, 0x04, 0x00, 0x01, 0x03, 0x00, 0x50, 0x01, 0x00]
      battery_sentinel
      (by decide) (by decide) (by decide) (by decide) (by decide)).1,
   (C10_unknown_component_skipped
      [0x04, 0x00, 0x04, 0x00, 0x04, 0x00, 0x01, 0x03, 0x00, 0x50, 0x01, 0x00]
      battery_sentinel
      (by decide) (by decide) (by decide) (by decide) (by decide)).2.2
      (by decide)⟩


/- ============================ C9 ============================ -/

lemma aap_parse_battery_result (data : List Nat) (b : AapBatteryData) :
    (aap_parse_battery data b).1 = AapParseResult.OK ∨
    (aap_parse_battery data b).1 = AapParseResult.INCOMPLETE ∨
    (aap_parse_battery data b).1 = AapParseResult.MALFORMED := by
  simp only [aap_parse_battery]
  split_ifs <;> simp

lemma aap_parse_ear_detection_result (data : List Nat) (e : AapEarDetectionData) :
    (aap_parse_ear_detection data e).1 = AapParseResult.OK ∨
    (aap_parse_ear_detection data e).1 = AapParseResult.INCOMPLETE ∨
    (aap_parse_ear_detection data e).1 = AapParseResult.MALFORMED := by
  simp only [aap_parse_ear_detection]
  split_ifs <;> simp

lemma aap_parse_noise_control_result (data : List Nat) (m : NoiseControlMode) :
    (aap_parse_noise_control data m).1 = AapParseResult.OK ∨
    (aap_parse_noise_control data m).1 = AapParseResult.INCOMPLETE ∨
    (aap_parse_noise_control data m).1 = AapParseResult.MALFORMED := by
  simp only [aap_parse_noise_control]
  split_ifs <;> simp

lemma aap_parse_metadata_result (data : List Nat) (m : AapMetadata) :
    (aap_parse_metadata data m).1 = AapParseResult.OK ∨
    (aap_parse_metadata data m).1 = AapParseResult.INCOMPLETE := by
  simp only [aap_parse_metadata]
  split_ifs <;> simp

lemma parse_control_packet_result (data : List Nat) (r0 : AapParsedPacket) :
    (parse_control_packet data r0).1 = AapParseResult.OK ∨
    (parse_control_packet data r0).1 = AapParseResult.INCOMPLETE ∨
    (parse_control_packet data r0).1 = AapParseResult.MALFORMED := by
  simp only [parse_control_packet]
  split_ifs with h1 h2 h3 h4
  · simp
  · rcases aap_parse_noise_control_result data r0.noise_control with h | h | h <;>
      simp [h]
  · simp
  · simp
  · simp

lemma aap_parse_packet_eval_invalid (data : List Nat) (r0 : AapParsedPacket)
    (hv : aap_has_valid_header data = false) :
    aap_parse_packet data r0 = (AapParseResult.INVALID_HEADER, r0) := by
  unfold aap_parse_packet
  rw [if_pos (by simp [hv])]

lemma aap_parse_packet_eval_short (data : List Nat) (r0 : AapParsedPacket)
    (hv : aap_has_valid_header data = true) (h5 : data.length < 5) :
    aap_parse_packet data r0 = (AapParseResult.INCOMPLETE, r0) := by
  unfold aap_parse_packet
  rw [if_neg (not_not_intro hv), if_pos h5]

lemma aap_parse_packet_eval_battery (data : List Nat) (r0 : AapParsedPacket)
    (hv : aap_has_valid_header data = true) (h5 : ¬ data.length < 5)
    (hop : byteAt data 4 = AAP_OPCODE_BATTERY) :
    aap_parse_packet data r0 =
      ((aap_parse_battery data r0.battery).1,
       { r0 with type := AapPacketType.BATTERY,
                 battery := (aap_parse_battery data r0.battery).2 }) := by
  unfold aap_parse_packet
  rw [if_neg (not_not_intro hv), if_neg h5]
  show (if byteAt data 4 = AAP_OPCODE_BATTERY then _ else _) = _
  rw [if_pos hop]

lemma aap_parse_packet_eval_ear (data : List Nat) (r0 : AapParsedPacket)
    (hv : aap_has_valid_header data = true) (h5 : ¬ data.length < 5)
    (hop : byteAt data 4 = AAP_OPCODE_EAR_DETECTION) :
    aap_parse_packet data r0 =
      ((aap_parse_ear_detection data r0.ear_detection).1,
       { r0 with type := AapPacketType.EAR_DETECTION,
                 ear_detection := (aap_parse_ear_detection data r0.ear_detection).2 }) := by
  unfold aap_parse_packet
  rw [if_neg (not_not_intro hv), if_neg h5]
  show (if byteAt data 4 = AAP_OPCODE_BATTERY then _ else _) = _
  rw [if_neg (by rw [hop]; decide), if_pos hop]

lemma aap_parse_packet_eval_control (data : List Nat) (r0 : AapParsedPacket)
    (hv : aap_has_valid_header data = true) (h5 : ¬ data.length < 5)
    (hop : byteAt data 4 = AAP_OPCODE_CONTROL) :
    aap_parse_packet data r0 =
      parse_control_packet data { r0 with type := AapPacketType.UNKNOWN } := by
  unfold aap_parse_packet
  rw [if_neg (not_not_intro hv), if_neg h5]
  show (if byteAt data 4 = AAP_OPCODE_BATTERY then _ else _) = _
  rw [if_neg (by rw [hop]; decide), if_neg (by rw [hop]; decide), if_pos hop]

lemma aap_parse_packet_eval_ca (data : List Nat) (r0 : AapParsedPacket)
    (hv : aap_has_valid_header data = true) (h5 : ¬ data.length < 5)
    (hop : byteAt data 4 = AAP_OPCODE_CA_DETECTION) :
    aap_parse_packet data r0 =
      (AapParseResult.OK,
       { r0 with type := AapPacketType.CA_DETECTION,
                 ca_volume_level :=
                   if 10 ≤ data.length then byteAt data 9 else r0.ca_volume_level }) := by
  unfold aap_parse_packet
  rw [if_neg (not_not_intro hv), if_neg h5]
  show (if byteAt data 4 = AAP_OPCODE_BATTERY then _ else _) = _
  rw [if_neg (by rw [hop]; decide), if_neg (by rw [hop]; decide),
      if_neg (by rw [hop]; decide), if_pos hop]

lemma aap_parse_packet_eval_metadata (data : List Nat) (r0 : AapParsedPacket)
    (hv : aap_has_valid_header data = true) (h5 : ¬ data.length < 5)
    (hop : byteAt data 4 = AAP_OPCODE_METADATA) :
    aap_parse_packet data r0 =
      ((aap_parse_metadata data r0.metadata).1,
       { r0 with type := AapPacketType.METADATA,
                 metadata := (aap_parse_metadata data r0.metadata).2 }) := by
  unfold aap_parse_packet
  rw [if_neg (not_not_intro hv), if_neg h5]
  show (if byteAt data 4 = AAP_OPCODE_BATTERY then _ else _) = _
  rw [if_neg (by rw [hop]; decide), if_neg (by rw [hop]; decide),
      if_neg (by rw [hop]; decide), if_neg (by rw [hop]; decide), if_pos hop]

lemma aap_parse_packet_eval_unknown (data : List Nat) (r0 : AapParsedPacket)
    (hv : aap_has_valid_header data = true) (h5 : ¬ data.length < 5)
    (hb : byteAt data 4 ≠ AAP_OPCODE_BATTERY)
    (he : byteAt data 4 ≠ AAP_OPCODE_EAR_DETECTION)
    (hc : byteAt data 4 ≠ AAP_OPCODE_CONTROL)
    (hca : byteAt data 4 ≠ AAP_OPCODE_CA_DETECTION)
    (hm : byteAt data 4 ≠ AAP_OPCODE_METADATA) :
    aap_parse_packet data r0 =
      (AapParseResult.UNKNOWN_OPCODE, { r0 with type := AapPacketType.UNKNOWN }) := by
  unfold aap_parse_packet
  rw [if_neg (not_not_intro hv), if_neg h5]
  show (if byteAt data 4 = AAP_OPCODE_BATTERY then _ else _) = _
  rw [if_neg hb, if_neg he, if_neg hc, if_neg hca, if_neg hm]

lemma aap_parse_packet_valid_not_invalid (data : List Nat) (r0 : AapParsedPacket)
    (hv : aap_has_valid_header data = true) :
    (aap_parse_packet data r0).1 ≠ AapParseResult.INVALID_HEADER := by
  by_cases h5 : data.length < 5
  · rw [aap_parse_packet_eval_short data r0 hv h5]; simp
  · by_cases hb : byteAt data 4 = AAP_OPCODE_BATTERY
    · rw [aap_parse_packet_eval_battery data r0 hv h5 hb]
      rcases aap_parse_battery_result data r0.battery with h | h | h <;> simp [h]
    · by_cases he : byteAt data 4 = AAP_OPCODE_EAR_DETECTION
      · rw [aap_parse_packet_eval_ear data r0 hv h5 he]
        rcases aap_parse_ear_detection_result data r0.ear_detection with h | h | h <;>
          simp [h]
      · by_cases hc : byteAt data 4 = AAP_OPCODE_CONTROL
        · rw [aap_parse_packet_eval_control data r0 hv h5 hc]
          rcases parse_control_packet_result data
            { r0 with type := AapPacketType.UNKNOWN } with h | h | h <;> simp [h]
        · by_cases hca : byteAt data 4 = AAP_OPCODE_CA_DETECTION
          · rw [aap_parse_packet_eval_ca data r0 hv h5 hca]; simp
          · by_cases hm : byteAt data 4 = AAP_OPCODE_METADATA
            · rw [aap_parse_packet_eval_metadata data r0 hv h5 hm]
              rcases aap_parse_metadata_result data r0.metadata with h | h <;> simp [h]
            · rw [aap_parse_packet_eval_unknown data r0 hv h5 hb he hc hca hm]; simp

/-- C9: `aap_parse_packet` classifies inputs as the claim states —
InvalidHeader exactly when the 4-byte magic prefix is absent; UnknownOpcode,
returned distinctly from the other errors, exactly when the header is valid,
the opcode byte is present and it is none of the five recognized opcodes;
Incomplete when the header is valid but the buffer is shorter than the
opcode requires; Malformed for a known opcode whose payload violates the
required shape (battery count byte 0 or greater than 3); and Ok otherwise.
The orchestrator processes exactly the Ok frames, drops the rest, and logs
at debug level only when the result is not UnknownOpcode. -/
theorem C9_parse_outcomes :
    (∀ (data : List Nat) (r0 : AapParsedPacket),
      ((aap_parse_packet data r0).1 = AapParseResult.INVALID_HEADER ↔
        aap_has_valid_header data = false)) ∧
    (∀ (data : List Nat) (r0 : AapParsedPacket),
      aap_has_valid_header data = true →
      ((aap_parse_packet data r0).1 = AapParseResult.UNKNOWN_OPCODE ↔
        (5 ≤ data.length ∧
         byteAt data 4 ≠ AAP_OPCODE_BATTERY ∧
         byteAt data 4 ≠ AAP_OPCODE_EAR_DETECTION ∧
         byteAt data 4 ≠ AAP_OPCODE_CONTROL ∧
         byteAt data 4 ≠ AAP_OPCODE_CA_DETECTION ∧
         byteAt data 4 ≠ AAP_OPCODE_METADATA))) ∧
    (∀ (data : List Nat) (r0 : AapParsedPacket),
      aap_has_valid_header data = true → data.length < 5 →
      (aap_parse_packet data r0).1 = AapParseResult.INCOMPLETE) ∧
    (∀ (data : List Nat) (r0 : AapParsedPacket),
      aap_has_valid_header data = true →
      byteAt data 4 = AAP_OPCODE_EAR_DETECTION → data.length < 8 →
      (aap_parse_packet data r0).1 = AapParseResult.INCOMPLETE) ∧
    (∀ (data : List Nat) (r0 : AapParsedPacket),
      aap_has_valid_header data = true →
      byteAt data 4 = AAP_OPCODE_CONTROL → data.length < 8 →
      (aap_parse_packet data r0).1 = AapParseResult.INCOMPLETE) ∧
    (∀ (data : List Nat) (r0 : AapParsedPacket),
      aap_has_valid_header data = true →
      byteAt data 4 = AAP_OPCODE_BATTERY → data.length < 12 →
      (aap_parse_packet data r0).1 = AapParseResult.INCOMPLETE) ∧
    (∀ (data : List Nat) (r0 : AapParsedPacket),
      aap_has_valid_header data = true →
      byteAt data 4 = AAP_OPCODE_METADATA → data.length < 12 →
      (aap_parse_packet data r0).1 = AapParseResult.INCOMPLETE) ∧
    (∀ (data : List Nat) (r0 : AapParsedPacket),
      aap_has_valid_header data = true →
      byteAt data 4 = AAP_OPCODE_BATTERY → byteAt data 5 = 0 →
      12 ≤ data.length →
      (byteAt data 6 = 0 ∨ 3 < byteAt data 6) →
      (aap_parse_packet data r0).1 = AapParseResult.MALFORMED) ∧
    (∀ (data : List Nat) (r0 : AapParsedPacket),
      (on_bt_data_received_disposition data r0 = PacketDisposition.processed ↔
        (aap_parse_packet data r0).1 = AapParseResult.OK) ∧
      (on_bt_data_received_disposition data r0 = PacketDisposition.dropped_silently ↔
        (aap_parse_packet data r0).1 = AapParseResult.UNKNOWN_OPCODE) ∧
      (on_bt_data_received_disposition data r0 = PacketDisposition.dropped_logged ↔
        ((aap_parse_packet data r0).1 ≠ AapParseResult.OK ∧
         (aap_parse_packet data r0).1 ≠ AapParseResult.UNKNOWN_OPCODE))) := by
  refine ⟨?_, ?_, ?_, ?_, ?_, ?_, ?_, ?_, ?_⟩
  · intro data r0
    constructor
    · intro h
      cases hv : aap_has_valid_header data
      · rfl
      · exact absurd h (aap_parse_packet_valid_not_invalid data r0 hv)
    · intro hv
      rw [aap_parse_packet_eval_invalid data r0 hv]
  · intro data r0 hv
    constructor
    · intro h
      by_cases h5 : data.length < 5
      · rw [aap_parse_packet_eval_short data r0 hv h5] at h
        exact absurd h (by simp)
      · by_cases hb : byteAt data 4 = AAP_OPCODE_BATTERY
        · rw [aap_parse_packet_eval_battery data r0 hv h5 hb] at h
          rcases aap_parse_battery_result data r0.battery with hr | hr | hr <;>
            simp [hr] at h
        · by_cases he : byteAt data 4 = AAP_OPCODE_EAR_DETECTION
          · rw [aap_parse_packet_eval_ear data r0 hv h5 he] at h
            rcases aap_parse_ear_detection_result data r0.ear_detection with
              hr | hr | hr <;> simp [hr] at h
          · by_cases hc : byteAt data 4 = AAP_OPCODE_CONTROL
            · rw [aap_parse_packet_eval_control data r0 hv h5 hc] at h
              rcases parse_control_packet_result data
                { r0 with type := AapPacketType.UNKNOWN } with hr | hr | hr <;>
                simp [hr] at h
            · by_cases hca : byteAt data 4 = AAP_OPCODE_CA_DETECTION
              · rw [aap_parse_packet_eval_ca data r0 hv h5 hca] at h
                exact absurd h (by simp)
              · by_cases hm : byteAt data 4 = AAP_OPCODE_METADATA
                · rw [aap_parse_packet_eval_metadata data r0 hv h5 hm] at h
                  rcases aap_parse_metadata_result data r0.metadata with hr | hr <;>
                    simp [hr] at h
                · exact ⟨by omega, hb, he, hc, hca, hm⟩
    · rintro ⟨h5, hb, he, hc, hca, hm⟩
      rw [aap_parse_packet_eval_unknown data r0 hv (by omega) hb he hc hca hm]
  · intro data r0 hv h5
    rw [aap_parse_packet_eval_short data r0 hv h5]
  · intro data r0 hv hop hlen
    by_cases h5 : data.length < 5
    · rw [aap_parse_packet_eval_short data r0 hv h5]
    · rw [aap_parse_packet_eval_ear data r0 hv h5 hop]
      simp only [aap_parse_ear_detection]
      rw [if_pos hlen]
  · intro data r0 hv hop hlen
    by_cases h5 : data.length < 5
    · rw [aap_parse_packet_eval_short data r0 hv h5]
    · rw [aap_parse_packet_eval_control data r0 hv h5 hop]
      simp only [parse_control_packet]
      rw [if_pos hlen]
  · intro data r0 hv hop hlen
    by_cases h5 : data.length < 5
    · rw [aap_parse_packet_eval_short data r0 hv h5]
    · rw [aap_parse_packet_eval_battery data r0 hv h5 hop]
      simp only [aap_parse_battery]
      rw [if_pos (show data.length < AAP_MIN_BATTERY_SIZE by
        simp only [AAP_MIN_BATTERY_SIZE]; omega)]
  · intro data r0 hv hop hlen
    by_cases h5 : data.length < 5
    · rw [aap_parse_packet_eval_short data r0 hv h5]
    · rw [aap_parse_packet_eval_metadata data r0 hv h5 hop]
      simp only [aap_parse_metadata]
      rw [if_pos hlen]
  · intro data r0 hv hop h5b h12 hcount
    have h5 : ¬ data.length < 5 := by omega
    rw [aap_parse_packet_eval_battery data r0 hv h5 hop]
    simp only [aap_parse_battery]
    rw [if_neg (show ¬ data.length < AAP_MIN_BATTERY_SIZE by
          simp only [AAP_MIN_BATTERY_SIZE]; omega),
        if_neg (by simp [hop, h5b]),
        if_pos (show byteAt data 6 = 0 ∨ byteAt data 6 > 3 from hcount)]
  · intro data r0
    rcases hres : (aap_parse_packet data r0).1 with _ | _ | _ | _ | _ <;>
      simp [on_bt_data_received_disposition, hres]

theorem C9_parse_outcomes_witness :
    ((aap_parse_packet [0x01, 0x02, 0x03] default).1 =
       AapParseResult.INVALID_HEADER ↔
     aap_has_valid_header [0x01, 0x02, 0x03] = false) ∧
    ((aap_parse_packet [0x04, 0x00, 0x04, 0x00, 0x17, 0x00] default).1 =
       AapParseResult.UNKNOWN_OPCODE) ∧
    ((aap_parse_packet
        [0x04, 0x00, 0x04, 0x00, 0x04, 0x00, 0x00, 1, 2, 3, 4, 5] default).1 =
       AapParseResult.MALFORMED) :=
  ⟨C9_parse_outcomes.1 [0x01, 0x02, 0x03] default,
   (C9_parse_outcomes.2.1 [0x04, 0x00, 0x04, 0x00, 0x17, 0x00] default
      (by decide)).2
     ⟨by decide, by decide, by decide, by decide, by decide, by decide⟩,
   C9_parse_outcomes.2.2.2.2.2.2.2.1
     [0x04, 0x00, 0x04, 0x00, 0x04, 0x00, 0x00, 1, 2, 3, 4, 5] default
     (by decide) (by decide) (by decide) (by decide) (Or.inl (by decide))⟩

end LibrePods
